import Mathlib

/-!
# BansheeEngine: RTTI descriptor of `CSphereCollider` and the `GUIToggleGroup` interop wrapper

Shallow embedding of

* `Source/BansheeCore/Include/BsCSphereColliderRTTI.h` (class `CSphereColliderRTTI`),
* `Source/SBansheeEngine/Include/BsScriptGUIToggleGroup.h` (class `ScriptGUIToggleGroup`),

together with a model of the reflection framework they plug into (type registry, field
descriptors, serialization engine).  The framework's sources are not part of the two headers;
every definition that stands for such an absent part says so in its doc comment.
-/

namespace BansheeEngine

/-! ## Data model of the reflection framework -/

/-- C++ `UINT32`; values are natural numbers below `2 ^ 32`. -/
abbrev UINT32 := Nat

/-- Modelled from the spec: `TypeId` of the data model, the numeric identifier of a concrete
reflectable type. -/
abbrev TypeId := Nat

/-- Modelled from the spec: `FieldId` of the data model, the identifier of a field inside one
type's own field list. -/
abbrev FieldId := Nat

/-- Modelled from the spec: the kinds a field descriptor of the data model can have. -/
inductive FieldKind
  | Plain
  | ReflectablePointer
  | ReflectableValue
  | PlainArray
  | ReflectablePointerArray
  deriving DecidableEq, Repr

mutual
/-- Modelled from the spec: value held by one reflected field, by kind.  Plain data is kept as its
raw bits. -/
inductive Value
  | plain (bits : Nat)
  | reflPtr (o : Option Object)
  | reflVal (o : Object)
  | plainArr (xs : List Nat)
  | reflPtrArr (os : List (Option Object))
/-- Modelled from the spec: reflectable object instance: its runtime type id and the values of its reflected fields,
one slot per field of the full (inherited, then own) field list. -/
inductive Object
  | mk (typeId : TypeId) (slots : List Value)
end

/-- Kind of the field a value belongs in. -/
def Value.kind : Value → FieldKind
  | .plain _ => .Plain
  | .reflPtr _ => .ReflectablePointer
  | .reflVal _ => .ReflectableValue
  | .plainArr _ => .PlainArray
  | .reflPtrArr _ => .ReflectablePointerArray

/-- Runtime type id of an object. -/
def Object.typeId : Object → TypeId
  | .mk t _ => t

/-- Field values of an object. -/
def Object.slots : Object → List Value
  | .mk _ s => s

/-- Modelled from the spec: `FieldDescriptor` of the data model: the field's id, its kind and the name of the member it accesses.  The
accessor pair reads and writes the slot the field occupies in the full field list. -/
structure FieldDescriptor where
  fieldId : FieldId
  kind : FieldKind
  name : String
  deriving DecidableEq, Repr

/-- Modelled from the spec: `RTTIDescriptor` of the data model: name, id, link to the base type's descriptor, own
field descriptors and the factory producing an empty instance. -/
inductive RTTIDescriptor
  | mk (typeName : String) (typeId : TypeId) (baseDescriptor : Option RTTIDescriptor)
      (fields : List FieldDescriptor) (factory : Unit → Object)

/-- Name stored in a descriptor. -/
def RTTIDescriptor.typeName : RTTIDescriptor → String
  | .mk n _ _ _ _ => n

/-- Type id stored in a descriptor. -/
def RTTIDescriptor.typeId : RTTIDescriptor → TypeId
  | .mk _ t _ _ _ => t

/-- Base link of a descriptor. -/
def RTTIDescriptor.baseDescriptor : RTTIDescriptor → Option RTTIDescriptor
  | .mk _ _ b _ _ => b

/-- Own (non-inherited) field descriptors. -/
def RTTIDescriptor.fields : RTTIDescriptor → List FieldDescriptor
  | .mk _ _ _ fs _ => fs

/-- Factory of a descriptor. -/
def RTTIDescriptor.newRTTIObject : RTTIDescriptor → Object
  | .mk _ _ _ _ f => f ()

/-- Modelled from the spec: enumeration of the full field set of a descriptor by walking the base
chain (the walk is part of the absent engine); base fields come before derived fields. -/
def RTTIDescriptor.allFields : RTTIDescriptor → List FieldDescriptor
  | .mk _ _ none fs _ => fs
  | .mk _ _ (some b) fs _ => b.allFields ++ fs

/-- Inherited part of the full field set. -/
def RTTIDescriptor.inheritedFields : RTTIDescriptor → List FieldDescriptor
  | .mk _ _ none _ _ => []
  | .mk _ _ (some b) _ _ => b.allFields

/-! ## Declarations the two headers rely on -/

/-- C++ classes named in the two headers. -/
inductive CppClass
  | CSphereCollider
  | CCollider
  | CSphereColliderRTTI
  | IReflectable
  | GUIToggleGroup
  | ScriptGUIToggleGroup
  deriving DecidableEq, Repr

/-- Declarations of the repository that `BsCSphereColliderRTTI.h` includes but that are not among
the sources; they are parameters of the embedding.

* `TID_CSphereCollider`: the type id constant (`BsCorePrerequisites.h`);
* `getRTTIStatic`: the static descriptor of a class, used for the base class
  (`BaseType::getRTTIStatic()` in `BsRTTIType.h`);
* `defaultMembers`: the member values of a default-constructed instance of a class, inherited
  members first (`BsCSphereCollider.h`, `BsCCollider.h`). -/
structure CoreDecls where
  TID_CSphereCollider : UINT32
  getRTTIStatic : CppClass → RTTIDescriptor
  defaultMembers : CppClass → List Value

/-- Template arguments of `RTTIType<Type, BaseType, MyRTTIType>`. -/
structure RTTIType where
  type : CppClass
  baseType : CppClass
  myRTTIType : CppClass
  deriving DecidableEq, Repr

/-! ## `BsCSphereColliderRTTI.h` -/

/-- Modelled from the spec: the member declaration `BS_RTTI_MEMBER_PLAIN(name, id)`; the
definition of this preprocessor construct is absent from the sources.  It declares a field
descriptor of kind Plain with the given member name and unique id. -/
def BS_RTTI_MEMBER_PLAIN (name : String) (uniqueId : FieldId) : FieldDescriptor :=
  { fieldId := uniqueId, kind := .Plain, name := name }

/-- State of a `CSphereColliderRTTI` object: the field descriptors registered with it. -/
structure CSphereColliderRTTI where
  mFields : List FieldDescriptor
  deriving DecidableEq, Repr

namespace CSphereColliderRTTI

/-- The instantiation `RTTIType<CSphereCollider, CCollider, CSphereColliderRTTI>` the class
derives from. -/
def rttiType : RTTIType :=
  { type := .CSphereCollider, baseType := .CCollider, myRTTIType := .CSphereColliderRTTI }

/-- The block between `BS_BEGIN_RTTI_MEMBERS` and `BS_END_RTTI_MEMBERS`. -/
def members : List FieldDescriptor :=
  [BS_RTTI_MEMBER_PLAIN "mRadius" 0]

/-- Modelled from the spec: the member `mInitMembers` that `BS_END_RTTI_MEMBERS` declares (its
definition is absent from the sources); initialising it with the owner registers every declared
member with the owner. -/
def mInitMembers (owner : CSphereColliderRTTI) : CSphereColliderRTTI :=
  { owner with mFields := owner.mFields ++ members }

/-- Constructor `CSphereColliderRTTI() : mInitMembers(this) { }`. -/
def new : CSphereColliderRTTI :=
  mInitMembers { mFields := [] }

/-- Storage of the function-local `static String name`: `none` until the first call has
initialised it. -/
abbrev NameStatic := Option String

/-- Method `getRTTIName`: initialises the function-local static on the first call and returns
(a reference to) it. -/
def getRTTIName (_self : CSphereColliderRTTI) : NameStatic → String × NameStatic
  | none => ("CSphereCollider", some "CSphereCollider")
  | some name => (name, some name)

/-- State of the function-local static after a sequence of earlier calls of `getRTTIName`, on
any descriptors, since program start. -/
def nameStaticAfter : List CSphereColliderRTTI → NameStatic
  | [] => none
  | self :: earlier => (getRTTIName self (nameStaticAfter earlier)).2

/-- Method `getRTTIId`. -/
def getRTTIId (env : CoreDecls) (_self : CSphereColliderRTTI) : UINT32 :=
  env.TID_CSphereCollider

end CSphereColliderRTTI

/-- Modelled from the spec: the query "what is my real RTTI descriptor" of a class, answered by
code that is absent from the sources, reduced to the type id that descriptor reports.  One
descriptor exists per concrete type: the class that the header names as the described type of
`CSphereColliderRTTI` answers that descriptor; every other class answers its own static
descriptor, which is not among the sources. -/
def rttiIdOf (env : CoreDecls) (T : CppClass) : TypeId :=
  if CSphereColliderRTTI.rttiType.type = T then
    CSphereColliderRTTI.getRTTIId env CSphereColliderRTTI.new
  else (env.getRTTIStatic T).typeId

/-- Modelled from the spec: `GameObjectRTTI::createGameObject<T>()` (`BsGameObjectRTTI.h`, absent
from the sources).  It takes no argument and returns a default-constructed instance of the
concrete type `T`; the instance reports the type id of the descriptor of `T`. -/
def GameObjectRTTI.createGameObject (env : CoreDecls) (T : CppClass) : Object :=
  .mk (rttiIdOf env T) (env.defaultMembers T)

namespace CSphereColliderRTTI

/-- Method `newRTTIObject`: `return GameObjectRTTI::createGameObject<CSphereCollider>();`. -/
def newRTTIObject (env : CoreDecls) (_self : CSphereColliderRTTI) : Object :=
  GameObjectRTTI.createGameObject env .CSphereCollider

/-- The descriptor as the framework sees it: name, id, base link, own fields and factory, as
answered by the methods of the class. -/
def descriptor (env : CoreDecls) (self : CSphereColliderRTTI) : RTTIDescriptor :=
  .mk (getRTTIName self none).1 (getRTTIId env self) (some (env.getRTTIStatic rttiType.baseType))
    self.mFields (fun _ => newRTTIObject env self)

end CSphereColliderRTTI

/-! ## `BsScriptGUIToggleGroup.h` -/

/-- A `std::shared_ptr<GUIToggleGroup>`: the address of the native object it shares, or null. -/
structure SharedPtr where
  ptr : Option Nat
  deriving DecidableEq, Repr

/-- Use counts of the control blocks of the shared native objects, by address. -/
abbrev UseCounts := Nat → Nat

/-- Copy construction of a shared pointer: the copy points to the same object and that object's
use count goes up by one; copying a null pointer changes nothing. -/
def SharedPtr.copy (p : SharedPtr) (counts : UseCounts) : SharedPtr × UseCounts :=
  match p.ptr with
  | none => (p, counts)
  | some a => (p, fun b => if b = a then counts b + 1 else counts b)

/-- State of a `ScriptGUIToggleGroup`: the managed instance it is bound to (kept by the base
class `ScriptObject`) and the wrapped native toggle group. -/
structure ScriptGUIToggleGroup where
  mManagedInstance : Nat
  mToggleGroup : SharedPtr
  deriving DecidableEq, Repr

namespace ScriptGUIToggleGroup

/-- Constructor `ScriptGUIToggleGroup(MonoObject* instance, const shared_ptr& toggleGroup)`; only
its declaration is in the header, the member is initialised from the argument. -/
def new (managedInstance : Nat) (toggleGroup : SharedPtr) : ScriptGUIToggleGroup :=
  { mManagedInstance := managedInstance, mToggleGroup := toggleGroup }

/-- Method `getInternalValue() const { return mToggleGroup; }`: returns a copy of the stored
shared pointer; yields the returned handle, the wrapper after the call and the use counts after
the call. -/
def getInternalValue (self : ScriptGUIToggleGroup) (counts : UseCounts) :
    SharedPtr × ScriptGUIToggleGroup × UseCounts :=
  let r := self.mToggleGroup.copy counts
  (r.1, self, r.2)

end ScriptGUIToggleGroup

/-! ## Type registry -/

/-- Modelled from the spec: the error taxonomy of the absent serialization engine. -/
inductive SerError
  | UnknownTypeError (typeId : TypeId)
  | CyclicGraphError
  | FieldTypeMismatchError (typeId : TypeId) (fieldId : FieldId)
  deriving DecidableEq, Repr

/-- Modelled from the spec: the type registry (absent from the sources), a table from type ids to
descriptors. -/
abbrev TypeRegistry := List (TypeId × RTTIDescriptor)

namespace TypeRegistry

/-- Modelled from the spec: `register(typeId, descriptorFactory)` of the absent registry;
registering an id a second time changes nothing.  The descriptor is instantiated when it is
registered; deferring that to the first `resolve` and caching it yields the same table. -/
def register (reg : TypeRegistry) (typeId : TypeId) (descriptorFactory : Unit → RTTIDescriptor) :
    TypeRegistry :=
  match reg.lookup typeId with
  | some _ => reg
  | none => reg ++ [(typeId, descriptorFactory ())]

/-- Whether a type id has been registered. -/
def registered (reg : TypeRegistry) (typeId : TypeId) : Bool :=
  (reg.lookup typeId).isSome

/-- Modelled from the spec: `resolve(typeId)` of the absent registry; fails with
`UnknownTypeError` when the id was never registered. -/
def resolve (reg : TypeRegistry) (typeId : TypeId) : Except SerError RTTIDescriptor :=
  match reg.lookup typeId with
  | some d => .ok d
  | none => .error (.UnknownTypeError typeId)

end TypeRegistry

/-! ## Stream format -/

mutual
/-- Modelled from the spec: payload of one field record of the stream format; its constructor is the kind tag of the record.  A pointer that
is null is written as the "no object" sentinel `none`; an array is written as its elements, whose
number is the element count. -/
inductive Payload
  | plain (bits : Nat)
  | reflPtr (r : Option Record)
  | reflVal (r : Record)
  | plainArr (xs : List Nat)
  | reflPtrArr (rs : List (Option Record))
/-- Modelled from the spec: record of one object in the stream format: its type id, then its field records, each a field id
with a tagged payload. -/
inductive Record
  | mk (typeId : TypeId) (fields : List (FieldId × Payload))
end

/-- Kind tag of a payload. -/
def Payload.kind : Payload → FieldKind
  | .plain _ => .Plain
  | .reflPtr _ => .ReflectablePointer
  | .reflVal _ => .ReflectableValue
  | .plainArr _ => .PlainArray
  | .reflPtrArr _ => .ReflectablePointerArray

/-- Type id at the head of a record. -/
def Record.typeId : Record → TypeId
  | .mk t _ => t

/-! ## Serialization engine -/

/-- Modelled from the spec: matching of a field record to a descriptor by field id, part of the
absent deserializer: position and descriptor of the first field of the list with that id.  The
spec does not say which descriptor matches when an inherited and an own field share an id. -/
def findField : List FieldDescriptor → FieldId → Option (Nat × FieldDescriptor)
  | [], _ => none
  | fd :: fds, fid =>
    if fd.fieldId = fid then some (0, fd)
    else (findField fds fid).map fun r => (r.1 + 1, r.2)

/-- Modelled from the spec: `set` of the accessor pair of the field occupying slot `k`. -/
def Object.setSlot : Object → Nat → Value → Object
  | .mk t slots, k, v => .mk t (slots.set k v)

mutual
/-- Modelled from the spec: `serialize` of the absent engine.  Resolves the descriptor of the
object's runtime type, writes the type id and then one field record per field descriptor in
base-to-derived order. -/
def serialize (reg : TypeRegistry) : Object → Except SerError Record
  | .mk t slots =>
    (reg.resolve t).bind fun d =>
      (writeFields reg d.allFields slots).map fun frs => Record.mk t frs
/-- Writes the field records of the given descriptors from the slots they access. -/
def writeFields (reg : TypeRegistry) :
    List FieldDescriptor → List Value → Except SerError (List (FieldId × Payload))
  | fd :: fds, v :: vs =>
    (encode reg v).bind fun p =>
      (writeFields reg fds vs).map fun rest => (fd.fieldId, p) :: rest
  | _, _ => .ok []
/-- Writes one value: plain data as is, a reflectable object by recursion. -/
def encode (reg : TypeRegistry) : Value → Except SerError Payload
  | .plain b => .ok (.plain b)
  | .reflPtr o => (encodePtr reg o).map fun r => Payload.reflPtr r
  | .reflVal o => (serialize reg o).map fun r => Payload.reflVal r
  | .plainArr xs => .ok (.plainArr xs)
  | .reflPtrArr os => (encodePtrs reg os).map fun rs => Payload.reflPtrArr rs
/-- Writes a pointer: the sentinel for null, the record of the object otherwise. -/
def encodePtr (reg : TypeRegistry) : Option Object → Except SerError (Option Record)
  | none => .ok none
  | some o => (serialize reg o).map fun r => some r
/-- Writes the elements of an array of pointers. -/
def encodePtrs (reg : TypeRegistry) : List (Option Object) → Except SerError (List (Option Record))
  | [] => .ok []
  | o :: os =>
    (encodePtr reg o).bind fun r => (encodePtrs reg os).map fun rs => r :: rs
end

mutual
/-- Modelled from the spec: `deserialize` of the absent engine.  Reads the type id, resolves its
descriptor, allocates the shell instance with `newRTTIObject` and populates it from the field
records. -/
def deserialize (reg : TypeRegistry) : Record → Except SerError Object
  | .mk t frs =>
    (reg.resolve t).bind fun d => readFields reg d.allFields frs d.newRTTIObject
/-- Reads field records in stream order: a record is dispatched to the descriptor matching its
field id; a record with an unknown field id, or whose kind tag differs from the descriptor's
kind, is skipped. -/
def readFields (reg : TypeRegistry) (fds : List FieldDescriptor) :
    List (FieldId × Payload) → Object → Except SerError Object
  | [], o => .ok o
  | (fid, p) :: rest, o =>
    match findField fds fid with
    | none => readFields reg fds rest o
    | some (k, fd) =>
      if fd.kind = p.kind then
        (decode reg p).bind fun v => readFields reg fds rest (o.setSlot k v)
      else readFields reg fds rest o
/-- Reads one payload: plain data as is, a nested record by recursion. -/
def decode (reg : TypeRegistry) : Payload → Except SerError Value
  | .plain b => .ok (.plain b)
  | .reflPtr r => (decodePtr reg r).map fun o => Value.reflPtr o
  | .reflVal r => (deserialize reg r).map fun o => Value.reflVal o
  | .plainArr xs => .ok (.plainArr xs)
  | .reflPtrArr rs => (decodePtrs reg rs).map fun os => Value.reflPtrArr os
/-- Reads a pointer: the sentinel leaves it null, a record is deserialized. -/
def decodePtr (reg : TypeRegistry) : Option Record → Except SerError (Option Object)
  | none => .ok none
  | some r => (deserialize reg r).map fun o => some o
/-- Reads the elements of an array of pointers. -/
def decodePtrs (reg : TypeRegistry) : List (Option Record) → Except SerError (List (Option Object))
  | [] => .ok []
  | r :: rs =>
    (decodePtr reg r).bind fun o => (decodePtrs reg rs).map fun os => o :: os
end

/-! ## Reflectable object graphs -/

mutual
/-- An object is a reflectable object graph of the registry when its type is registered, it has
one slot per field of its type's full field list, every slot holds a value of the field's kind,
and the nested objects are reflectable object graphs themselves.  Objects are finite trees, so
such a graph has no cycle. -/
def Object.conforms (reg : TypeRegistry) : Object → Bool
  | .mk t slots =>
    match reg.lookup t with
    | none => false
    | some d => slotsConform reg d.allFields slots
/-- Slots against the descriptors of the fields occupying them. -/
def slotsConform (reg : TypeRegistry) : List FieldDescriptor → List Value → Bool
  | [], [] => true
  | fd :: fds, v :: vs =>
    decide (v.kind = fd.kind) && (valueConforms reg v && slotsConform reg fds vs)
  | [], _ :: _ => false
  | _ :: _, [] => false
/-- The objects nested in a value conform. -/
def valueConforms (reg : TypeRegistry) : Value → Bool
  | .plain _ => true
  | .reflPtr o => ptrConforms reg o
  | .reflVal o => o.conforms reg
  | .plainArr _ => true
  | .reflPtrArr os => ptrsConform reg os
/-- A pointer is null or points to a conforming object. -/
def ptrConforms (reg : TypeRegistry) : Option Object → Bool
  | none => true
  | some o => o.conforms reg
/-- All elements of an array of pointers conform. -/
def ptrsConform (reg : TypeRegistry) : List (Option Object) → Bool
  | [] => true
  | o :: os => ptrConforms reg o && ptrsConform reg os
end

mutual
/-- Type ids occurring anywhere in a record, nested records included. -/
def Record.typeIds : Record → List TypeId
  | .mk t frs => t :: fieldsTypeIds frs
/-- Type ids occurring in a list of field records. -/
def fieldsTypeIds : List (FieldId × Payload) → List TypeId
  | [] => []
  | (_, p) :: rest => p.typeIds ++ fieldsTypeIds rest
/-- Type ids occurring in a payload. -/
def Payload.typeIds : Payload → List TypeId
  | .plain _ => []
  | .reflPtr r => ptrTypeIds r
  | .reflVal r => r.typeIds
  | .plainArr _ => []
  | .reflPtrArr rs => ptrsTypeIds rs
/-- Type ids occurring behind a pointer payload. -/
def ptrTypeIds : Option Record → List TypeId
  | none => []
  | some r => r.typeIds
/-- Type ids occurring in the elements of an array payload. -/
def ptrsTypeIds : List (Option Record) → List TypeId
  | [] => []
  | r :: rs => ptrTypeIds r ++ ptrsTypeIds rs
end

mutual
/-- Type ids the deserializer has to resolve while reading a record: the type id of the record
itself and, when that one is registered, the ones of the nested records in the fields that are
dispatched to a matching descriptor of the same kind.  Records in skipped fields are not
read. -/
def Record.resolvedTypeIds (reg : TypeRegistry) : Record → List TypeId
  | .mk t frs =>
    t :: (match reg.lookup t with
      | none => []
      | some d => fieldsResolvedTypeIds reg d.allFields frs)
/-- Type ids resolved while reading a list of field records. -/
def fieldsResolvedTypeIds (reg : TypeRegistry) (fds : List FieldDescriptor) :
    List (FieldId × Payload) → List TypeId
  | [] => []
  | (fid, p) :: rest =>
    (match findField fds fid with
      | none => []
      | some (_, fd) => if fd.kind = p.kind then p.resolvedTypeIds reg else []) ++
      fieldsResolvedTypeIds reg fds rest
/-- Type ids resolved while reading a payload. -/
def Payload.resolvedTypeIds (reg : TypeRegistry) : Payload → List TypeId
  | .plain _ => []
  | .reflPtr r => ptrResolvedTypeIds reg r
  | .reflVal r => r.resolvedTypeIds reg
  | .plainArr _ => []
  | .reflPtrArr rs => ptrsResolvedTypeIds reg rs
/-- Type ids resolved while reading a pointer payload. -/
def ptrResolvedTypeIds (reg : TypeRegistry) : Option Record → List TypeId
  | none => []
  | some r => r.resolvedTypeIds reg
/-- Type ids resolved while reading the elements of an array payload. -/
def ptrsResolvedTypeIds (reg : TypeRegistry) : List (Option Record) → List TypeId
  | [] => []
  | r :: rs => ptrResolvedTypeIds reg r ++ ptrsResolvedTypeIds reg rs
end

/-- Result of reading part of a stream, against the type ids that part makes the deserializer
resolve: success when all of them are registered, `UnknownTypeError` on an unregistered one
otherwise. -/
def Outcome (reg : TypeRegistry) (ids : List TypeId) {α : Type} : Except SerError α → Prop
  | .ok _ => ∀ t ∈ ids, reg.registered t = true
  | .error e => ∃ u ∈ ids, reg.registered u = false ∧ e = .UnknownTypeError u

/-! ## Sample configurations -/

/-- A descriptor for `CCollider` with one plain and one pointer field, ids 1 and 2. -/
def sampleColliderRTTI : RTTIDescriptor :=
  .mk "CCollider" 1 none
    [{ fieldId := 1, kind := .Plain, name := "mInherited" },
     { fieldId := 2, kind := .ReflectablePointer, name := "mLink" }]
    (fun _ => .mk 1 [.plain 0, .reflPtr none])

/-- Declarations in which `TID_CSphereCollider` is 2 and `CCollider` has `sampleColliderRTTI`. -/
def sampleEnv : CoreDecls :=
  { TID_CSphereCollider := 2
    getRTTIStatic := fun _ => sampleColliderRTTI
    defaultMembers := fun _ => [.plain 0, .reflPtr none, .plain 1] }

/-- Registry holding the descriptors of `CCollider` and `CSphereCollider`. -/
def sampleRegistry : TypeRegistry :=
  (TypeRegistry.register [] 1 fun _ => sampleColliderRTTI).register 2
    fun _ => CSphereColliderRTTI.descriptor sampleEnv CSphereColliderRTTI.new

/-- A stream for a sphere collider whose link field refers to an object of type 77. -/
def sampleUnknownStream : Record :=
  .mk 2 [(0, .plain 9), (2, .reflPtr (some (.mk 77 [])))]

/-- A stream for a sphere collider with an extra field 9, unknown to the descriptor, that holds
an object of type 77. -/
def sampleSkippedStream : Record :=
  .mk 2 [(0, .plain 9), (9, .reflPtr (some (.mk 77 [])))]

/-! ## Lemmas on the serialization engine -/

/-- Mapping the result keeps the outcome. -/
theorem Outcome.mono {reg : TypeRegistry} {ids : List TypeId} {α β : Type}
    {x : Except SerError α} (f : α → β) (h : Outcome reg ids x) : Outcome reg ids (x.map f) := by
  cases x <;> simpa [Outcome, Except.map] using h

/-- Outcome of two reads in sequence. -/
theorem Outcome.bind {reg : TypeRegistry} {ids₁ ids₂ : List TypeId} {α β : Type}
    {x : Except SerError α} {f : α → Except SerError β} (h₁ : Outcome reg ids₁ x)
    (h₂ : ∀ a, Outcome reg ids₂ (f a)) : Outcome reg (ids₁ ++ ids₂) (x.bind f) := by
  cases x with
  | error e =>
    obtain ⟨u, hu, hn, he⟩ := h₁
    exact ⟨u, List.mem_append_left _ hu, hn, he⟩
  | ok a =>
    have h₂a := h₂ a
    simp only [Except.bind]
    cases hfa : f a with
    | error e =>
      rw [hfa] at h₂a
      obtain ⟨u, hu, hn, he⟩ := h₂a
      exact ⟨u, List.mem_append_right _ hu, hn, he⟩
    | ok b =>
      rw [hfa] at h₂a
      intro t ht
      rcases List.mem_append.mp ht with h | h
      · exact h₁ t h
      · exact h₂a t h

/-- Outcome of a read after a skipped record. -/
theorem Outcome.skip {reg : TypeRegistry} {ids : List TypeId} {α : Type}
    {x : Except SerError α} (h : Outcome reg ids x) : Outcome reg ([] ++ ids) x := by
  simpa using h

mutual
/-- Deserializing a record succeeds when every resolved type id is registered and fails with
`UnknownTypeError` on an unregistered one otherwise. -/
theorem deserialize_outcome (reg : TypeRegistry) :
    ∀ r : Record, Outcome reg (r.resolvedTypeIds reg) (deserialize reg r)
  | .mk t frs => by
    cases hl : reg.lookup t with
    | none =>
      simp only [deserialize, TypeRegistry.resolve, hl, Except.bind, Record.resolvedTypeIds]
      exact ⟨t, by simp, by simp [TypeRegistry.registered, hl], rfl⟩
    | some d =>
      have h := readFields_outcome reg d.allFields frs d.newRTTIObject
      simp only [deserialize, TypeRegistry.resolve, hl, Except.bind, Record.resolvedTypeIds]
      cases hx : readFields reg d.allFields frs d.newRTTIObject with
      | error e =>
        rw [hx] at h
        obtain ⟨u, hu, hn, he⟩ := h
        exact ⟨u, List.mem_cons_of_mem _ hu, hn, he⟩
      | ok o =>
        rw [hx] at h
        intro u hu
        rcases List.mem_cons.mp hu with h' | h'
        · subst h'
          simp [TypeRegistry.registered, hl]
        · exact h u h'
/-- Outcome of reading a list of field records. -/
theorem readFields_outcome (reg : TypeRegistry) (fds : List FieldDescriptor) :
    ∀ (frs : List (FieldId × Payload)) (o : Object),
      Outcome reg (fieldsResolvedTypeIds reg fds frs) (readFields reg fds frs o)
  | [], o => by simp [readFields, fieldsResolvedTypeIds, Outcome]
  | (fid, p) :: rest, o => by
    simp only [readFields, fieldsResolvedTypeIds]
    cases hf : findField fds fid with
    | none => exact (readFields_outcome reg fds rest o).skip
    | some kfd =>
      obtain ⟨k, fd⟩ := kfd
      by_cases hk : fd.kind = p.kind
      · simp only [hk, if_true]
        exact Outcome.bind (decode_outcome reg p)
          (fun v => readFields_outcome reg fds rest (o.setSlot k v))
      · simp only [hk, if_false]
        exact (readFields_outcome reg fds rest o).skip
/-- Outcome of reading a payload. -/
theorem decode_outcome (reg : TypeRegistry) :
    ∀ p : Payload, Outcome reg (p.resolvedTypeIds reg) (decode reg p)
  | .plain b => by simp [decode, Payload.resolvedTypeIds, Outcome]
  | .plainArr xs => by simp [decode, Payload.resolvedTypeIds, Outcome]
  | .reflPtr r => by
    simp only [decode, Payload.resolvedTypeIds]
    exact (decodePtr_outcome reg r).mono _
  | .reflVal r => by
    simp only [decode, Payload.resolvedTypeIds]
    exact (deserialize_outcome reg r).mono _
  | .reflPtrArr rs => by
    simp only [decode, Payload.resolvedTypeIds]
    exact (decodePtrs_outcome reg rs).mono _
/-- Outcome of reading a pointer payload. -/
theorem decodePtr_outcome (reg : TypeRegistry) :
    ∀ r : Option Record, Outcome reg (ptrResolvedTypeIds reg r) (decodePtr reg r)
  | none => by simp [decodePtr, ptrResolvedTypeIds, Outcome]
  | some r => by
    simp only [decodePtr, ptrResolvedTypeIds]
    exact (deserialize_outcome reg r).mono _
/-- Outcome of reading the elements of an array payload. -/
theorem decodePtrs_outcome (reg : TypeRegistry) :
    ∀ rs : List (Option Record), Outcome reg (ptrsResolvedTypeIds reg rs) (decodePtrs reg rs)
  | [] => by simp [decodePtrs, ptrsResolvedTypeIds, Outcome]
  | r :: rs => by
    simp only [decodePtrs, ptrsResolvedTypeIds]
    exact Outcome.bind (decodePtr_outcome reg r) (fun o => (decodePtrs_outcome reg rs).mono _)
end


/-- The function-local static of `getRTTIName` is either not initialised yet or holds the
literal it is initialised with. -/
theorem nameStaticAfter_cases (earlier : List CSphereColliderRTTI) :
    CSphereColliderRTTI.nameStaticAfter earlier = none ∨
      CSphereColliderRTTI.nameStaticAfter earlier = some "CSphereCollider" := by
  induction earlier with
  | nil => exact Or.inl rfl
  | cons self earlier ih =>
    rcases ih with h | h <;>
      simp [CSphereColliderRTTI.nameStaticAfter, CSphereColliderRTTI.getRTTIName, h]

/-- An instance of a class other than the one `CSphereColliderRTTI` describes reports the id of
its own static descriptor. -/
theorem createGameObject_typeId_other (env : CoreDecls) (T : CppClass)
    (h : T ≠ .CSphereCollider) :
    (GameObjectRTTI.createGameObject env T).typeId = (env.getRTTIStatic T).typeId := by
  have h2 : ¬ (CppClass.CSphereCollider = T) := fun e => h e.symm
  simp [GameObjectRTTI.createGameObject, rttiIdOf, CSphereColliderRTTI.rttiType, Object.typeId, h2]

/-- A registered type id resolves. -/
theorem resolve_of_registered {reg : TypeRegistry} {t : TypeId} (h : reg.registered t = true) :
    ∃ d, reg.resolve t = .ok d := by
  cases hl : reg.lookup t with
  | none => simp [TypeRegistry.registered, hl] at h
  | some d => exact ⟨d, by simp [TypeRegistry.resolve, hl]⟩

/-! ## The claims -/

/-- Claim C1: whatever the state of the descriptor and whatever calls of `getRTTIName` were made
before, on this or on other descriptors, `getRTTIName` returns the string "CSphereCollider"; any
two calls return equal strings. -/
theorem getRTTIName_constant (earlier earlier₂ : List CSphereColliderRTTI)
    (self self₂ : CSphereColliderRTTI) :
    (CSphereColliderRTTI.getRTTIName self (CSphereColliderRTTI.nameStaticAfter earlier)).1 =
        "CSphereCollider" ∧
      (CSphereColliderRTTI.getRTTIName self (CSphereColliderRTTI.nameStaticAfter earlier)).1 =
        (CSphereColliderRTTI.getRTTIName self₂
          (CSphereColliderRTTI.nameStaticAfter earlier₂)).1 := by
  have key : ∀ (l : List CSphereColliderRTTI) (x : CSphereColliderRTTI),
      (CSphereColliderRTTI.getRTTIName x (CSphereColliderRTTI.nameStaticAfter l)).1 =
        "CSphereCollider" := by
    intro l x
    rcases nameStaticAfter_cases l with h | h <;> simp [CSphereColliderRTTI.getRTTIName, h]
  exact ⟨key earlier self, (key earlier self).trans (key earlier₂ self₂).symm⟩

/-- Claim C2: `getRTTIId` returns the constant `TID_CSphereCollider` whatever the state of the
descriptor; two descriptors report the same type id. -/
theorem getRTTIId_constant (env : CoreDecls) (self self₂ : CSphereColliderRTTI) :
    CSphereColliderRTTI.getRTTIId env self = env.TID_CSphereCollider ∧
      CSphereColliderRTTI.getRTTIId env self = CSphereColliderRTTI.getRTTIId env self₂ :=
  ⟨rfl, rfl⟩

/-- Claim C4: the own field list of a freshly constructed `CSphereColliderRTTI` has exactly one
entry, the field `mRadius` with field id 0, so its field ids are pairwise distinct. -/
theorem ownFields_fieldIds_distinct :
    (CSphereColliderRTTI.new.mFields.map fun fd => (fd.name, fd.fieldId)) = [("mRadius", 0)] ∧
      CSphereColliderRTTI.new.mFields.length = 1 ∧
      (CSphereColliderRTTI.new.mFields.map fun fd => fd.fieldId).Nodup ∧
      ∀ env : CoreDecls,
        (CSphereColliderRTTI.descriptor env CSphereColliderRTTI.new).fields =
          CSphereColliderRTTI.new.mFields := by
  refine ⟨by decide, by decide, by decide, fun _ => rfl⟩

/-- Claim C5: `getInternalValue` returns a shared handle equal to the stored `mToggleGroup`: it
points to the same native object, the one the wrapper was constructed with. -/
theorem getInternalValue_returns_wrapped (self : ScriptGUIToggleGroup) (counts : UseCounts)
    (managedInstance : Nat) (toggleGroup : SharedPtr) :
    (self.getInternalValue counts).1 = self.mToggleGroup ∧
      (self.getInternalValue counts).1.ptr = self.mToggleGroup.ptr ∧
      ((ScriptGUIToggleGroup.new managedInstance toggleGroup).getInternalValue counts).1 =
        toggleGroup := by
  refine ⟨?_, ?_, ?_⟩ <;>
    simp only [ScriptGUIToggleGroup.getInternalValue, ScriptGUIToggleGroup.new,
      SharedPtr.copy] <;> split <;> rfl

/-- Claim C8: the only own field `CSphereColliderRTTI` registers, `mRadius`, has kind Plain,
none of the reflectable or array kinds, and walking the own fields never recurses into a nested
reflectable object: writing them from slots that hold values of their kinds produces no nested
record, and reading any field records against them resolves no type. -/
theorem ownFields_plain :
    (CSphereColliderRTTI.new.mFields.map fun fd => (fd.name, fd.kind)) =
        [("mRadius", FieldKind.Plain)] ∧
      (∀ fd ∈ CSphereColliderRTTI.new.mFields,
        fd.kind ≠ .ReflectablePointer ∧ fd.kind ≠ .ReflectableValue ∧
          fd.kind ≠ .PlainArray ∧ fd.kind ≠ .ReflectablePointerArray) ∧
      (∀ (reg : TypeRegistry) (vs : List Value),
        slotsConform reg CSphereColliderRTTI.new.mFields vs = true →
          ∃ recs, writeFields reg CSphereColliderRTTI.new.mFields vs = .ok recs ∧
            fieldsTypeIds recs = []) ∧
      ∀ (reg : TypeRegistry) (recs : List (FieldId × Payload)),
        fieldsResolvedTypeIds reg CSphereColliderRTTI.new.mFields recs = [] := by
  refine ⟨by decide, by decide, ?_, ?_⟩
  · intro reg vs hc
    have hm : CSphereColliderRTTI.new.mFields = [BS_RTTI_MEMBER_PLAIN "mRadius" 0] := rfl
    rw [hm] at hc ⊢
    match vs, hc with
    | [v], hc =>
      simp only [slotsConform, BS_RTTI_MEMBER_PLAIN, Bool.and_eq_true, decide_eq_true_eq] at hc
      cases v with
      | plain b =>
        exact ⟨[(0, .plain b)],
          by simp [writeFields, encode, Except.bind, Except.map, BS_RTTI_MEMBER_PLAIN],
          by simp [fieldsTypeIds, Payload.typeIds]⟩
      | reflPtr o => simp [Value.kind] at hc
      | reflVal o => simp [Value.kind] at hc
      | plainArr xs => simp [Value.kind] at hc
      | reflPtrArr os => simp [Value.kind] at hc
    | [], hc => simp [slotsConform] at hc
    | _ :: _ :: _, hc => simp [slotsConform] at hc
  · intro reg recs
    have hm : CSphereColliderRTTI.new.mFields = [BS_RTTI_MEMBER_PLAIN "mRadius" 0] := rfl
    rw [hm]
    induction recs with
    | nil => simp [fieldsResolvedTypeIds]
    | cons r rest ih =>
      obtain ⟨fid, p⟩ := r
      simp only [fieldsResolvedTypeIds, ih, List.append_nil]
      by_cases hf : fid = 0
      · subst hf
        cases p <;>
          simp [findField, BS_RTTI_MEMBER_PLAIN, Payload.kind, Payload.resolvedTypeIds]
      · have hf2 : ¬ (0 = fid) := fun h => hf h.symm
        simp [findField, BS_RTTI_MEMBER_PLAIN, hf2]

/-- Instance of `ownFields_plain`: a slot holding the plain value 9 conforms to the own fields
and is written as one plain field record. -/
theorem ownFields_plain_witness :
    slotsConform sampleRegistry CSphereColliderRTTI.new.mFields [.plain 9] = true ∧
      writeFields sampleRegistry CSphereColliderRTTI.new.mFields [.plain 9] =
        .ok [(0, .plain 9)] ∧
      ∃ recs, writeFields sampleRegistry CSphereColliderRTTI.new.mFields [.plain 9] = .ok recs ∧
        fieldsTypeIds recs = [] :=
  ⟨rfl, rfl, ownFields_plain.2.2.1 sampleRegistry [.plain 9] rfl⟩

/-- Claim C9: `CSphereColliderRTTI` describes `CSphereCollider` and names one base type,
`CCollider`, a type other than the described one; the base link of its descriptor is the
descriptor of `CCollider` and its inherited fields are the fields of that descriptor. -/
theorem baseType_ne_type :
    CSphereColliderRTTI.rttiType.type = .CSphereCollider ∧
      CSphereColliderRTTI.rttiType.baseType = .CCollider ∧
      CSphereColliderRTTI.rttiType.baseType ≠ CSphereColliderRTTI.rttiType.type ∧
      ∀ (env : CoreDecls) (self : CSphereColliderRTTI),
        (CSphereColliderRTTI.descriptor env self).baseDescriptor =
            some (env.getRTTIStatic .CCollider) ∧
          (CSphereColliderRTTI.descriptor env self).inheritedFields =
            (env.getRTTIStatic .CCollider).allFields ∧
          (CSphereColliderRTTI.descriptor env self).allFields =
            (env.getRTTIStatic .CCollider).allFields ++ self.mFields := by
  refine ⟨rfl, rfl, by decide, fun env self => ⟨rfl, rfl, rfl⟩⟩

/-- Claim C10: `getInternalValue` leaves the wrapper as it was, `mToggleGroup` included, so a
second call on the same wrapper returns a handle to the same native toggle group. -/
theorem getInternalValue_pure (self : ScriptGUIToggleGroup) (counts : UseCounts) :
    (self.getInternalValue counts).2.1 = self ∧
      (self.getInternalValue counts).2.1.mToggleGroup = self.mToggleGroup ∧
      (((self.getInternalValue counts).2.1).getInternalValue
          (self.getInternalValue counts).2.2).1 = (self.getInternalValue counts).1 := by
  refine ⟨rfl, rfl, ?_⟩
  simp only [ScriptGUIToggleGroup.getInternalValue, SharedPtr.copy]
  cases self.mToggleGroup.ptr <;> rfl


/-- Claim C7, as amended: when one of the type ids the deserializer has to resolve while reading
a stream (the type id of the stream's record, or that of a nested record in a field dispatched
to a matching descriptor) was never registered, deserialization fails with `UnknownTypeError`
for an unregistered type id; the result is that error and no object.  In particular a stream
whose own type id was never registered fails with `UnknownTypeError` for that id. -/
theorem deserialize_unknownType (reg : TypeRegistry) (r : Record) (t : TypeId)
    (ht : t ∈ r.resolvedTypeIds reg) (hn : reg.registered t = false) :
    (∃ u, u ∈ r.resolvedTypeIds reg ∧ reg.registered u = false ∧
        deserialize reg r = .error (.UnknownTypeError u)) ∧
      (∀ o, deserialize reg r ≠ .ok o) ∧
      (reg.registered r.typeId = false →
        deserialize reg r = .error (.UnknownTypeError r.typeId)) := by
  have h := deserialize_outcome reg r
  have first : ∃ u, u ∈ r.resolvedTypeIds reg ∧ reg.registered u = false ∧
      deserialize reg r = .error (.UnknownTypeError u) := by
    cases hx : deserialize reg r with
    | ok o =>
      rw [hx] at h
      have := h t ht
      rw [hn] at this
      cases this
    | error e =>
      rw [hx] at h
      obtain ⟨u, hu, hnu, he⟩ := h
      exact ⟨u, hu, hnu, by rw [he]⟩
  refine ⟨first, ?_, ?_⟩
  · obtain ⟨u, _, _, hu⟩ := first
    intro o ho
    rw [hu] at ho
    cases ho
  · intro hroot
    cases r with
    | mk t₀ frs =>
      cases hl : reg.lookup t₀ with
      | none => simp [deserialize, TypeRegistry.resolve, hl, Except.bind, Record.typeId]
      | some d => simp [TypeRegistry.registered, Record.typeId, hl] at hroot

/-- Instance of `deserialize_unknownType`: the link field of the sample stream holds an object
of the unregistered type 77, and deserialization fails with `UnknownTypeError 77`. -/
theorem deserialize_unknownType_witness :
    77 ∈ sampleUnknownStream.resolvedTypeIds sampleRegistry ∧
      sampleRegistry.registered 77 = false ∧
      deserialize sampleRegistry sampleUnknownStream = .error (.UnknownTypeError 77) ∧
      ∃ u, u ∈ sampleUnknownStream.resolvedTypeIds sampleRegistry ∧
        sampleRegistry.registered u = false ∧
        deserialize sampleRegistry sampleUnknownStream = .error (.UnknownTypeError u) :=
  ⟨by decide, rfl, rfl,
    (deserialize_unknownType sampleRegistry sampleUnknownStream 77 (by decide) rfl).1⟩

/-- Claim C7 fails as stated: the sample stream with the extra field 9 refers to the type id 77,
which was never registered, but the record holding it sits in a field the descriptor does not
know; the field is skipped and deserialization succeeds. -/
theorem deserialize_skips_unknownType :
    77 ∈ sampleSkippedStream.typeIds ∧ sampleRegistry.registered 77 = false ∧
      findField (CSphereColliderRTTI.descriptor sampleEnv CSphereColliderRTTI.new).allFields 9 =
        none ∧
      deserialize sampleRegistry sampleSkippedStream =
        .ok (.mk 2 [.plain 0, .reflPtr none, .plain 9]) :=
  ⟨by decide, rfl, rfl, rfl⟩

end BansheeEngine
